import Mathlib

set_option maxHeartbeats 1000000

/-! Shallow embedding of the Terabox Telegram bot repository
    (`index.js` and the three sibling variants `part_000`, `part_001`,
    `part_002`).

    Conventions of the embedding:
    * times are Unix timestamps in milliseconds, modelled as `Nat`;
      a JS `Date` value is identified with its timestamp and a `null`
      date field is `none`;
    * the Mongo `User` collection is a `List UserRec` (one document per
      entry; the `userId` unique index is stated as a theorem hypothesis
      where needed, not baked in);
    * outward Telegram API calls are recorded as effect lists instead of
      being performed;
    * environment inputs (the current time, platform-assigned message
      ids, the media-resolution API response, per-recipient send
      success) are explicit parameters. -/

/-- A document of the `User` collection (schema of `index.js`,
    `part_000` and `part_001`): `userId`, `isAccessGranted`,
    `accessExpires` (nullable date), `createdAt`. -/
structure UserRec where
  userId : Nat
  isAccessGranted : Bool
  accessExpires : Option Nat
  createdAt : Nat
deriving DecidableEq

/-- JS relational comparison `d > t` where `d` is a `Date` or `null`:
    `null` coerces to the number 0, a `Date` to its timestamp. -/
def jsDateGt (d : Option Nat) (t : Nat) : Bool :=
  decide (d.getD 0 > t)

/-- `part_001`, `hasAccess`:
    `user?.isAccessGranted && user.accessExpires > new Date()`.
    A missing user short-circuits to a falsy result. -/
def hasAccess (user : Option UserRec) (now : Nat) : Bool :=
  match user with
  | none => false
  | some u => u.isAccessGranted && jsDateGt u.accessExpires now

/-- `index.js` (message handler and `/start` handler), `hasActiveAccess`:
    `user && user.isAccessGranted && user.accessExpires > new Date()`.
    Textually the same test as the `hasAccess` of `part_001`. -/
def hasActiveAccess (user : Option UserRec) (now : Nat) : Bool :=
  match user with
  | none => false
  | some u => u.isAccessGranted && jsDateGt u.accessExpires now

/-- `User.findOne({ userId })`: first document whose `userId` matches. -/
def findUser (db : List UserRec) (uid : Nat) : Option UserRec :=
  db.find? (fun u => u.userId == uid)

/-- Mongoose `user.save()` on a fetched document: the stored document
    with the same `userId` is replaced by the mutated one. -/
def saveUser (db : List UserRec) (u : UserRec) : List UserRec :=
  db.map (fun v => if v.userId == u.userId then u else v)

/-- `index.js` / `part_000`, `registerUser(userId)`: look the user up and
    insert a fresh document with schema defaults if absent.  `now` is the
    ambient `Date.now` used for the `createdAt` default. -/
def registerUser (db : List UserRec) (uid : Nat) (now : Nat) :
    List UserRec × UserRec :=
  match findUser db uid with
  | some u => (db, u)
  | none =>
    let u : UserRec :=
      { userId := uid, isAccessGranted := false, accessExpires := none,
        createdAt := now }
    (db ++ [u], u)

/-- `part_001`, `getOrCreateUser(userId)`:
    `findOneAndUpdate({userId}, {$setOnInsert: {userId}}, {upsert, new})`.
    An existing document is returned unmodified (`$setOnInsert` only acts
    on insert); otherwise a document with schema defaults is inserted. -/
def getOrCreateUser (db : List UserRec) (uid : Nat) (now : Nat) :
    List UserRec × UserRec :=
  match findUser db uid with
  | some u => (db, u)
  | none =>
    let u : UserRec :=
      { userId := uid, isAccessGranted := false, accessExpires := none,
        createdAt := now }
    (db ++ [u], u)

/-- The grant block of the `/start` handlers (`index.js` lines 126-131,
    `part_000` lines 93-98, `part_001` lines 138-140):
    `isAccessGranted = true; accessExpires = now + 24*60*60*1000`. -/
def grantAccessUpdate (user : UserRec) (now : Nat) : UserRec :=
  { user with isAccessGranted := true,
              accessExpires := some (now + 24 * 60 * 60 * 1000) }

/-- JS `String.prototype.includes`: substring containment, modelled on
    the character list. -/
def listIncludes (pat : List Char) : List Char → Bool
  | [] => pat.isEmpty
  | c :: rest => pat.isPrefixOf (c :: rest) || listIncludes pat rest

/-- JS `text.includes(pat)` / the regex test `/(terabox|4funbox)\.com/`
    reduced to its two substring alternatives. -/
def strIncludes (s pat : String) : Bool :=
  listIncludes pat.data s.data

/-- JS `text.startsWith(pre)`: prefix test, modelled on the character
    list. -/
def strStartsWith (s pre : String) : Bool :=
  pre.data.isPrefixOf s.data

/-- JS `text.split(" ")` with a single-space separator: split on every space, keeping
    empty fragments (so a trailing space yields a trailing `""`). -/
def jsSplitOnSpace : List Char → List (List Char)
  | [] => [[]]
  | c :: rest =>
    match jsSplitOnSpace rest with
    | [] => [[]]
    | p :: ps => if c = ' ' then [] :: p :: ps else (c :: p) :: ps

/-- `index.js` / `part_000` deep-link test in the `/start` handler:
    `msg.text.includes("/start") && msg.text.length > 6`. -/
def startDeepLinkCondition (text : String) : Bool :=
  strIncludes text "/start" && decide (text.length > 6)

/-- `part_001` deep-link test in the `/start` handler:
    `msg.text.split(" ").length > 1`. -/
def startPayloadCondition001 (text : String) : Bool :=
  decide ((jsSplitOnSpace text.data).length > 1)

/-- Result of a `/start` handler run: the updated store, the (possibly
    granted) user document, and whether the insufficient-balance inline
    keyboard was attached to the reply. -/
structure StartResult where
  db : List UserRec
  user : UserRec
  keyboardShown : Bool
deriving DecidableEq

/-- `index.js` `/start` handler (lines 113-159): register the user, grant
    24-hour access when the deep-link test passes, then branch the reply
    on `hasActiveAccess`.  (`part_000` lines 83-121 are the same logic.) -/
def startHandler (db : List UserRec) (uid : Nat) (text : String)
    (now : Nat) : StartResult :=
  let res := registerUser db uid now
  if startDeepLinkCondition text then
    let granted := grantAccessUpdate res.2 now
    { db := saveUser res.1 granted, user := granted,
      keyboardShown := !hasActiveAccess (some granted) now }
  else
    { db := res.1, user := res.2,
      keyboardShown := !hasActiveAccess (some res.2) now }

/-- `part_001` `/start` handler (lines 126-163): upsert the user, grant
    24-hour access when the payload test passes, then branch the reply on
    `hasAccess`. -/
def startHandler001 (db : List UserRec) (uid : Nat) (text : String)
    (now : Nat) : StartResult :=
  let res := getOrCreateUser db uid now
  if startPayloadCondition001 text then
    let granted := grantAccessUpdate res.2 now
    { db := saveUser res.1 granted, user := granted,
      keyboardShown := !hasAccess (some granted) now }
  else
    { db := res.1, user := res.2,
      keyboardShown := !hasAccess (some res.2) now }

/-- A pending `setTimeout` deletion of one message. -/
structure Timer where
  delayMs : Nat
  chatId : Int
  messageId : Nat
deriving DecidableEq

/-- `index.js` / `part_000`, `scheduleMessageDeletion(chatId, messageId)`:
    one `setTimeout` with the fixed `DELAY_MS = 20000`. -/
def scheduleMessageDeletion (chatId : Int) (messageId : Nat) : Timer :=
  { delayMs := 20000, chatId := chatId, messageId := messageId }

/-- `part_001`, `scheduleDelete(chatId, messageId, delay = 20000)`; the
    delay argument is always left at its default 20000. -/
def scheduleDelete (chatId : Int) (messageId : Nat) : Timer :=
  { delayMs := 20000, chatId := chatId, messageId := messageId }

/-- Shape of a rejected `deleteMessage` call: an optional HTTP response
    carrying a status code (absent for network-level failures). -/
structure ErrResponse where
  statusCode : Nat
deriving DecidableEq

/-- The error value handed to the deletion `.catch` callbacks. -/
structure DeleteError where
  response : Option ErrResponse
deriving DecidableEq

/-- What a deletion `.catch` callback does: maybe a console log, and (in
    every variant) no user-facing message. -/
structure DeleteErrorEffect where
  logged : Bool
  userMessage : Option String
deriving DecidableEq

/-- `index.js` deletion catch (lines 86-91): log only when the error has
    a response whose `statusCode` is not 400; never message the user. -/
def deleteErrorHandler (e : DeleteError) : DeleteErrorEffect :=
  { logged :=
      match e.response with
      | some r => r.statusCode != 400
      | none => false,
    userMessage := none }

/-- `part_000` deletion catch (line 76): always `console.error`; never
    message the user. -/
def deleteErrorHandler000 (_e : DeleteError) : DeleteErrorEffect :=
  { logged := true, userMessage := none }

/-- `part_001` deletion catch (line 109): `.catch(() => {})`, discard
    everything. -/
def deleteErrorHandler001 (_e : DeleteError) : DeleteErrorEffect :=
  { logged := false, userMessage := none }

/-- One outward Telegram API call recorded by a handler. -/
inductive Outward where
  | message (chatId : Int) (text : String)
  | video (chatId : Int) (mediaUrl : String) (caption : String)
  | deleteMsg (chatId : Int) (messageId : Nat)
deriving DecidableEq

/-- Parsed body of the media-resolution API response. -/
structure VideoData where
  status : String
  media_url : Option String
  title : String
deriving DecidableEq

/-- JS truthiness of an optional string field: `undefined`/`null` and
    `""` are falsy. -/
def jsTruthyStr : Option String → Bool
  | none => false
  | some s => !s.isEmpty

/-- JS `a || b` on strings (used for the title fallback in `part_001`):
    the first operand unless it is falsy. -/
def jsOrStr (a b : String) : String :=
  if a.isEmpty then b else a

/-- Effects of one run of a message handler. -/
structure MsgEffects where
  sent : List Outward
  apiCalls : List String
  userReads : List Nat
  dbWrites : List UserRec
  timers : List Timer
deriving DecidableEq

/-- The empty effect record: nothing sent, fetched, read, written or
    scheduled. -/
def emptyMsgEffects : MsgEffects :=
  { sent := [], apiCalls := [], userReads := [], dbWrites := [],
    timers := [] }

def processingText : String :=
  "⏳ **ভিডিও প্রসেস করা হচ্ছে...** অনুগ্রহ করে অপেক্ষা করুন।"

def apiErrorText : String :=
  "😥 দুঃখিত, এই লিঙ্ক থেকে ভিডিওটি ডাউনলোড করা যাচ্ছে না। API Error."

def fetchErrorText : String :=
  "⚠️ ভিডিও সার্ভার থেকে ডেটা আনতে সমস্যা হয়েছে।"

def insufficientText : String :=
  "⚠️ **Insufficient Balance**. অনুগ্রহ করে অ্যাক্সেস নিন:"

/-- `index.js` caption template for the delivered video. -/
def captionText (title : String) : String :=
  "**" ++ title ++ "**\n\n---\n⚠️ **Video ko forward karke save kar lo. 20 second me delete ho jayega.**"

/-- `index.js` message handler (lines 206-282).  `api` is the outcome of
    the `axios.get` on the media-resolution endpoint (`none` = the call
    threw); `loadingId` and `newMsgId` are the platform-assigned ids of
    the loading message and of the sent video. -/
def messageHandler (db : List UserRec) (now : Nat) (uid : Nat)
    (chatId : Int) (text : String) (api : Option VideoData)
    (loadingId : Nat) (newMsgId : Nat) : MsgEffects :=
  if strStartsWith text "/"
      || !(strIncludes text "terabox.com" || strIncludes text "4funbox.com") then
    emptyMsgEffects
  else
    let user := findUser db uid
    if hasActiveAccess user now then
      match api with
      | some vd =>
        if vd.status == "success" && jsTruthyStr vd.media_url then
          { sent := [Outward.message chatId processingText,
                     Outward.video chatId (vd.media_url.getD "")
                       (captionText vd.title),
                     Outward.deleteMsg chatId loadingId],
            apiCalls := [text], userReads := [uid], dbWrites := [],
            timers := [scheduleMessageDeletion chatId newMsgId] }
        else
          { sent := [Outward.message chatId processingText,
                     Outward.message chatId apiErrorText,
                     Outward.deleteMsg chatId loadingId],
            apiCalls := [text], userReads := [uid], dbWrites := [],
            timers := [] }
      | none =>
        { sent := [Outward.message chatId processingText,
                   Outward.message chatId fetchErrorText,
                   Outward.deleteMsg chatId loadingId],
          apiCalls := [text], userReads := [uid], dbWrites := [],
          timers := [] }
    else
      { sent := [Outward.message chatId insufficientText],
        apiCalls := [], userReads := [uid], dbWrites := [], timers := [] }

def accessRequiredText001 : String :=
  "⚠️ Access required. Please use /start to get access."

def processingText001 : String :=
  "⏳ Processing video... Please wait."

def fetchErrorText001 : String :=
  "❌ Failed to fetch video from the server. Link may be invalid or API down."

/-- `part_001` message handler (lines 192-236).  The text is optional
    (`!msg.text` returns early); success requires only a truthy
    `media_url`. -/
def messageHandler001 (db : List UserRec) (now : Nat) (uid : Nat)
    (chatId : Int) (text : Option String) (api : Option VideoData)
    (loadingId : Nat) (newMsgId : Nat) : MsgEffects :=
  match text with
  | none => emptyMsgEffects
  | some t =>
    if strStartsWith t "/" then emptyMsgEffects
    else if !(strIncludes t "terabox.com" || strIncludes t "4funbox.com") then
      emptyMsgEffects
    else
      let user := findUser db uid
      if !hasAccess user now then
        { sent := [Outward.message chatId accessRequiredText001],
          apiCalls := [], userReads := [uid], dbWrites := [], timers := [] }
      else
        match api with
        | some vd =>
          if jsTruthyStr vd.media_url then
            { sent := [Outward.message chatId processingText001,
                       Outward.video chatId (vd.media_url.getD "")
                         (jsOrStr vd.title "Terabox Video"),
                       Outward.deleteMsg chatId loadingId],
              apiCalls := [t], userReads := [uid], dbWrites := [],
              timers := [scheduleDelete chatId newMsgId] }
          else
            { sent := [Outward.message chatId processingText001,
                       Outward.message chatId fetchErrorText001,
                       Outward.deleteMsg chatId loadingId],
              apiCalls := [t], userReads := [uid], dbWrites := [],
              timers := [] }
        | none =>
          { sent := [Outward.message chatId processingText001,
                     Outward.message chatId fetchErrorText001,
                     Outward.deleteMsg chatId loadingId],
            apiCalls := [t], userReads := [uid], dbWrites := [],
            timers := [] }

/-- `userId === ADMIN_ID` (`index.js` line 75, `part_000` line 65,
    `part_001` line 94). -/
def isAdmin (adminId : Nat) (uid : Nat) : Bool :=
  uid == adminId

/-- The two persisted stores the admin commands touch: the `User`
    collection and the `Config` collection (key-value rows). -/
structure AdminState where
  users : List UserRec
  config : List (String × String)
deriving DecidableEq

/-- Effects of one admin-command handler run: the stores afterwards, the
    replies sent back to the invoking chat, and the per-recipient
    broadcast sends attempted. -/
structure AdminEffect where
  state : AdminState
  replies : List String
  broadcastSends : List (Nat × String)
deriving DecidableEq

/-- Mongo `Config.findOneAndUpdate({key}, {value}, {upsert: true})` on a
    collection with a unique `key` index: replace the value of the first
    row with that key, or append a fresh row. -/
def configUpsert : List (String × String) → String → String →
    List (String × String)
  | [], key, value => [(key, value)]
  | kv :: rest, key, value =>
    if kv.1 == key then (key, value) :: rest
    else kv :: configUpsert rest key value

def notAdminText : String := "❌ You are not an admin."

def setvideoPromptText : String :=
  "🔗 Please send the video you want to set as the tutorial video now."

def setvideoDoneText : String := "✅ Tutorial video successfully set."

/-- `index.js` `/setvideo` handler (lines 288-324).  `video` is the
    `file_id` of the video the admin subsequently sends to the one-shot
    listener (`none` = no video arrived, the listener stays pending and
    the config is untouched). -/
def setvideoHandler (adminId : Nat) (uid : Nat) (st : AdminState)
    (video : Option String) : AdminEffect :=
  if !isAdmin adminId uid then
    { state := st, replies := [notAdminText], broadcastSends := [] }
  else
    match video with
    | none =>
      { state := st, replies := [setvideoPromptText], broadcastSends := [] }
    | some fid =>
      { state := { st with
          config := configUpsert st.config "tutorial_video_file_id" fid },
        replies := [setvideoPromptText, setvideoDoneText],
        broadcastSends := [] }

/-- The Mongo filter of the active-access count:
    `{ isAccessGranted: true, accessExpires: { $gt: new Date() } }`
    (a `null` date never satisfies `$gt`). -/
def activeAccessFilter (now : Nat) (u : UserRec) : Bool :=
  u.isAccessGranted &&
    match u.accessExpires with
    | none => false
    | some e => decide (e > now)

def userStatusText (total : Nat) (active : Nat) : String :=
  "📊 **User Status:**\n\n* Total Users: **" ++ toString total
    ++ "**\n* Active Access: **" ++ toString active ++ "**"

/-- `index.js` `/usercount` handler (lines 327-348). -/
def usercountHandler (adminId : Nat) (uid : Nat) (now : Nat)
    (st : AdminState) : AdminEffect :=
  if !isAdmin adminId uid then
    { state := st, replies := [notAdminText], broadcastSends := [] }
  else
    { state := st,
      replies := [userStatusText st.users.length
        (st.users.filter (activeAccessFilter now)).length],
      broadcastSends := [] }

/-- Accumulated effect of the `/broadcast` loop: the sends attempted so
    far and the running `successCount`. -/
structure BroadcastEffect where
  attempts : List (Nat × String)
  successCount : Nat
deriving DecidableEq

/-- One iteration of the `/broadcast` loop (`index.js` lines 366-374):
    attempt the send; on success increment `successCount`, on failure
    swallow the error and continue. -/
def broadcastStep (sendOk : Nat → Bool) (message : String)
    (eff : BroadcastEffect) (u : UserRec) : BroadcastEffect :=
  if sendOk u.userId then
    { attempts := eff.attempts ++ [(u.userId, message)],
      successCount := eff.successCount + 1 }
  else
    { attempts := eff.attempts ++ [(u.userId, message)],
      successCount := eff.successCount }

/-- The `/broadcast` loop over `User.find({})`.  `sendOk uid` says
    whether the platform accepts the send to `uid` (e.g. `false` for a
    user who blocked the bot). -/
def broadcastRun (users : List UserRec) (sendOk : Nat → Bool)
    (message : String) : BroadcastEffect :=
  users.foldl (broadcastStep sendOk message)
    { attempts := [], successCount := 0 }

def broadcastDoneText (successCount : Nat) : String :=
  "✅ Successfully sent message to **" ++ toString successCount ++ "** users."

/-- `index.js` `/broadcast` handler (lines 351-382). -/
def broadcastCommandHandler (adminId : Nat) (uid : Nat) (st : AdminState)
    (message : String) (sendOk : Nat → Bool) : AdminEffect :=
  if !isAdmin adminId uid then
    { state := st, replies := [notAdminText], broadcastSends := [] }
  else
    let run := broadcastRun st.users sendOk message
    { state := st, replies := [broadcastDoneText run.successCount],
      broadcastSends := run.attempts }

/-- `part_001` `/setvideo` handler (lines 239-263): a non-admin is
    ignored silently (`if (!isAdmin(msg.from.id)) return;`). -/
def setvideoHandler001 (adminId : Nat) (uid : Nat) (st : AdminState)
    (video : Option String) : AdminEffect :=
  if !isAdmin adminId uid then
    { state := st, replies := [], broadcastSends := [] }
  else
    match video with
    | none =>
      { state := st, replies := ["Send the tutorial video now."],
        broadcastSends := [] }
    | some fid =>
      { state := { st with
          config := configUpsert st.config "tutorial_video_file_id" fid },
        replies := ["Send the tutorial video now.", "✅ Tutorial saved"],
        broadcastSends := [] }

def userStatsText001 (total : Nat) (active : Nat) : String :=
  "👥 **User Stats**\n\n* Total Users: **" ++ toString total
    ++ "**\n* Active Access: **" ++ toString active ++ "**"

/-- `part_001` `/usercount` handler (lines 266-284): a non-admin is
    ignored silently. -/
def usercountHandler001 (adminId : Nat) (uid : Nat) (now : Nat)
    (st : AdminState) : AdminEffect :=
  if !isAdmin adminId uid then
    { state := st, replies := [], broadcastSends := [] }
  else
    { state := st,
      replies := [userStatsText001 st.users.length
        (st.users.filter (activeAccessFilter now)).length],
      broadcastSends := [] }

/-- A document of the `User` collection of the Telegraf variant
    (`part_002`): `telegramId`, `isAccessGranted`, `accessExpiresAt`
    (nullable date), `isAdmin`. -/
structure TUser where
  telegramId : Nat
  isAccessGranted : Bool
  accessExpiresAt : Option Nat
  isAdmin : Bool
deriving DecidableEq

/-- `part_002`, `grantAccess(user)`: `setHours(getHours() + 24)` on the
    current time, i.e. exactly now + 24h in milliseconds on a DST-free
    (UTC) clock, plus `isAccessGranted = true`. -/
def telegrafGrantAccess (user : TUser) (now : Nat) : TUser :=
  { user with isAccessGranted := true,
              accessExpiresAt := some (now + 24 * 60 * 60 * 1000) }

/-- The entitlement test of `part_002` (`bot.start` line 119 and the
    text handler line 190):
    `user.accessExpiresAt && user.accessExpiresAt > now` — a truthy
    (non-null) expiry date that lies strictly in the future; the
    `isAccessGranted` flag is not consulted. -/
def telegrafTextHasAccess (u : TUser) (now : Nat) : Bool :=
  match u.accessExpiresAt with
  | none => false
  | some e => decide (e > now)

/-- The reply sent by `bot.start` of `part_002`. -/
inductive StartReply where
  | congrats
  | welcomeActive
  | welcomeNoAccess
deriving DecidableEq

/-- `part_002` `bot.start` (lines 108-142): find or create the user; a
    returning user with a non-null expiry that is not in the future is
    immediately re-granted 24 hours (`congrats` reply); otherwise the
    welcome branches on the entitlement test. -/
def telegrafStart (existing : Option TUser) (adminId : Nat) (uid : Nat)
    (now : Nat) : TUser × StartReply :=
  match existing with
  | some user =>
    let hasAcc := telegrafTextHasAccess user now
    if !hasAcc && user.accessExpiresAt.isSome then
      (telegrafGrantAccess user now, StartReply.congrats)
    else if hasAcc then (user, StartReply.welcomeActive)
    else (user, StartReply.welcomeNoAccess)
  | none =>
    let user : TUser :=
      { telegramId := uid, isAccessGranted := false,
        accessExpiresAt := none, isAdmin := uid == adminId }
    if telegrafTextHasAccess user now then (user, StartReply.welcomeActive)
    else (user, StartReply.welcomeNoAccess)

/-- Whitespace class of the JS regex `\s` restricted to the characters
    relevant here. -/
def isWsChar (c : Char) : Bool :=
  c = ' ' || c = '\t' || c = '\n' || c = '\r'

/-- `command.split(/\s+/)[0]`: the leading run of non-whitespace
    characters (empty when the command starts with whitespace). -/
def firstWsToken (s : String) : String :=
  ⟨s.data.takeWhile (fun c => !isWsChar c)⟩

def notAdminText002 : String := "❌ আপনি অ্যাডমিন নন।"

def broadcastPrefix002 : String := "📢 **অ্যাডমিনের বার্তা:**\n\n"

/-- Effects of one `handleAdminCommands` run in `part_002`: the
    module-level `tutorialVideoFileId` afterwards, the replies, and the
    broadcast sends attempted. -/
structure TelegrafAdminEffect where
  tutorial : Option String
  replies : List String
  broadcastSends : List (Nat × String)
deriving DecidableEq

/-- The `/brodcast` loop of `part_002` (lines 88-97) over the stored
    Telegraf users. -/
def telegrafBroadcastRun (users : List TUser) (sendOk : Nat → Bool)
    (message : String) : BroadcastEffect :=
  users.foldl
    (fun eff u =>
      if sendOk u.telegramId then
        { attempts := eff.attempts ++ [(u.telegramId, message)],
          successCount := eff.successCount + 1 }
      else
        { attempts := eff.attempts ++ [(u.telegramId, message)],
          successCount := eff.successCount })
    { attempts := [], successCount := 0 }

/-- `part_002`, `handleAdminCommands(ctx, command)` (lines 67-103).
    `replyToVideo` is the `file_id` of the video the command replies to,
    when there is one. -/
def handleAdminCommands (adminId : Nat) (uid : Nat) (users : List TUser)
    (tutorial : Option String) (command : String)
    (replyToVideo : Option String) (sendOk : Nat → Bool) :
    TelegrafAdminEffect :=
  let cmd := firstWsToken command
  if uid != adminId then
    { tutorial := tutorial, replies := [notAdminText002],
      broadcastSends := [] }
  else if cmd == "/setvideo" then
    match replyToVideo with
    | some fid =>
      { tutorial := some fid,
        replies := ["✅ টিউটোরিয়াল ভিডিও সেট করা হয়েছে"],
        broadcastSends := [] }
    | none =>
      { tutorial := tutorial,
        replies := ["অনুগ্রহ করে যে ভিডিওটি সেট করতে চান সেটির উপর রিপ্লাই করে কমান্ডটি দিন।"],
        broadcastSends := [] }
  else if cmd == "/usercount" then
    { tutorial := tutorial,
      replies := ["📊 মোট ইউজার সংখ্যা: **" ++ toString users.length ++ "** জন।"],
      broadcastSends := [] }
  else if cmd == "/brodcast" then
    let msg := (command.drop 9).trim
    if decide (msg.length > 0) then
      let run := telegrafBroadcastRun users sendOk (broadcastPrefix002 ++ msg)
      { tutorial := tutorial,
        replies := ["✅ সফলভাবে **" ++ toString run.successCount
          ++ "** জন ইউজারকে ব্রডকাস্ট করা হয়েছে।"],
        broadcastSends := run.attempts }
    else
      { tutorial := tutorial,
        replies := ["অনুগ্রহ করে সঠিক ফরম্যাটে মেসেজ দিন।"],
        broadcastSends := [] }
  else
    { tutorial := tutorial, replies := [], broadcastSends := [] }

/-! Helper lemmas (shared between the claim theorems). -/

theorem hasAccess_eq_hasActiveAccess (user : Option UserRec) (now : Nat) :
    hasAccess user now = hasActiveAccess user now := by
  cases user <;> rfl

theorem getOrCreateUser_eq_registerUser :
    getOrCreateUser = registerUser := rfl

theorem listIncludes_of_isPrefixOf (p t : List Char)
    (h : p.isPrefixOf t = true) : listIncludes p t = true := by
  cases t with
  | nil =>
    cases p with
    | nil => rfl
    | cons a as => simp [List.isPrefixOf] at h
  | cons c rest => simp [listIncludes, h]

theorem startText_data (payload : String) :
    ("/start " ++ payload).data = "/start".data ++ (' ' :: payload.data) := by
  simp [String.data_append]

theorem strIncludes_startText (payload : String) :
    strIncludes ("/start " ++ payload) "/start" = true := by
  unfold strIncludes
  apply listIncludes_of_isPrefixOf
  rw [startText_data, List.isPrefixOf_iff_prefix]
  exact List.prefix_append _ _

theorem jsSplitOnSpace_length (l : List Char) :
    (jsSplitOnSpace l).length = l.count ' ' + 1 := by
  induction l with
  | nil => rfl
  | cons c rest ih =>
    unfold jsSplitOnSpace
    cases h : jsSplitOnSpace rest with
    | nil => rw [h] at ih; simp at ih
    | cons p ps =>
      rw [h] at ih
      simp only [List.length_cons] at ih
      by_cases hc : c = ' ' <;>
        simp [h, hc, List.count_cons, ih]

theorem startDeepLinkCondition_startText (payload : String) :
    startDeepLinkCondition ("/start " ++ payload) = true := by
  unfold startDeepLinkCondition
  rw [strIncludes_startText]
  have h7 : ("/start " ++ payload).length = 7 + payload.length := by
    rw [String.length_append]; rfl
  simp [h7]
  omega

theorem startPayloadCondition001_startText (payload : String) :
    startPayloadCondition001 ("/start " ++ payload) = true := by
  unfold startPayloadCondition001
  rw [startText_data]
  simp only [jsSplitOnSpace_length, List.count_append, List.count_cons]
  simp

/-! Claim theorems. -/

/-- C1: for every user record and every current time, the entitlement
    check (`hasAccess` in `part_001`, `hasActiveAccess` in `index.js`)
    grants access exactly when the record exists, its `isAccessGranted`
    flag is true and its expiry is strictly greater than the current
    time; an expiry equal to the current time, or a missing record, does
    not grant access. -/
theorem entitlement_check_correct (user : Option UserRec) (now : Nat) :
    hasAccess user now = hasActiveAccess user now ∧
    (hasAccess user now = true ↔
      ∃ u e, user = some u ∧ u.isAccessGranted = true ∧
        u.accessExpires = some e ∧ now < e) ∧
    hasAccess none now = false ∧
    (∀ u : UserRec,
      hasAccess (some { u with accessExpires := some now }) now = false) := by
  refine ⟨hasAccess_eq_hasActiveAccess user now, ?_, rfl, ?_⟩
  · cases user with
    | none => simp [hasAccess]
    | some u =>
      cases h : u.accessExpires with
      | none => simp [hasAccess, jsDateGt, h]
      | some e =>
        simp [hasAccess, jsDateGt, h]
  · intro u
    simp [hasAccess, jsDateGt]

/-- C2: a `/start` whose text carries any extra payload after the
    command passes the deep-link test of every variant and makes the
    handler grant 24-hour access (flag set, expiry = now + 24h),
    independently of what the payload is — no verification against the
    access-link flow. -/
theorem start_payload_grants_access (db : List UserRec) (uid : Nat)
    (payload : String) (now : Nat) :
    startDeepLinkCondition ("/start " ++ payload) = true ∧
    startPayloadCondition001 ("/start " ++ payload) = true ∧
    (startHandler db uid ("/start " ++ payload) now).user.isAccessGranted
      = true ∧
    (startHandler db uid ("/start " ++ payload) now).user.accessExpires
      = some (now + 24 * 60 * 60 * 1000) ∧
    (startHandler001 db uid ("/start " ++ payload) now).user.isAccessGranted
      = true ∧
    (startHandler001 db uid ("/start " ++ payload) now).user.accessExpires
      = some (now + 24 * 60 * 60 * 1000) := by
  refine ⟨startDeepLinkCondition_startText payload,
    startPayloadCondition001_startText payload, ?_, ?_, ?_, ?_⟩ <;>
    simp [startHandler, startHandler001, startDeepLinkCondition_startText,
      startPayloadCondition001_startText, grantAccessUpdate]

/-- C3: granting sets the flag to true and the expiry to exactly
    now + 24 hours, in both the webhook grant block and the Telegraf
    `grantAccess`; re-granting overwrites the stored expiry (the result
    is independent of any earlier grant). -/
theorem grant_overwrites_expiry (u : UserRec) (v : TUser) (t1 t2 : Nat) :
    (grantAccessUpdate u t2).isAccessGranted = true ∧
    (grantAccessUpdate u t2).accessExpires
      = some (t2 + 24 * 60 * 60 * 1000) ∧
    grantAccessUpdate (grantAccessUpdate u t1) t2 = grantAccessUpdate u t2 ∧
    (telegrafGrantAccess v t2).isAccessGranted = true ∧
    (telegrafGrantAccess v t2).accessExpiresAt
      = some (t2 + 24 * 60 * 60 * 1000) ∧
    telegrafGrantAccess (telegrafGrantAccess v t1) t2
      = telegrafGrantAccess v t2 :=
  ⟨rfl, rfl, rfl, rfl, rfl, rfl⟩

theorem findUser_after_register (db : List UserRec) (uid : Nat)
    (now : Nat) :
    findUser (registerUser db uid now).1 uid
      = some (registerUser db uid now).2 := by
  unfold registerUser
  cases h : findUser db uid with
  | some u => simp [h]
  | none =>
    simp only [h]
    unfold findUser at h ⊢
    rw [List.find?_append, h]
    simp [List.find?]

theorem registerUser_stable (db : List UserRec) (uid : Nat)
    (n1 n2 : Nat) :
    registerUser (registerUser db uid n1).1 uid n2
      = ((registerUser db uid n1).1, (registerUser db uid n1).2) := by
  have h := findUser_after_register db uid n1
  revert h
  generalize registerUser db uid n1 = r
  intro h
  unfold registerUser
  simp [h]

theorem startDeepLinkCondition_bare :
    startDeepLinkCondition "/start" = false := by decide

/-- C6: registration is idempotent — a second `registerUser` (and
    `getOrCreateUser`, which is the same upsert) on an id already in the
    store returns the store unchanged and the existing record with its
    fields intact, and a second plain `/start` leaves the store and the
    record unchanged. -/
theorem registration_idempotent (db : List UserRec) (uid : Nat)
    (n1 n2 : Nat) :
    registerUser (registerUser db uid n1).1 uid n2
      = ((registerUser db uid n1).1, (registerUser db uid n1).2) ∧
    getOrCreateUser (getOrCreateUser db uid n1).1 uid n2
      = ((getOrCreateUser db uid n1).1, (getOrCreateUser db uid n1).2) ∧
    (startHandler (startHandler db uid "/start" n1).db uid "/start" n2).db
      = (startHandler db uid "/start" n1).db ∧
    (startHandler (startHandler db uid "/start" n1).db uid "/start" n2).user
      = (startHandler db uid "/start" n1).user := by
  refine ⟨registerUser_stable db uid n1 n2, ?_, ?_, ?_⟩
  · rw [getOrCreateUser_eq_registerUser]
    exact registerUser_stable db uid n1 n2
  · simp [startHandler, startDeepLinkCondition_bare,
      registerUser_stable db uid n1 n2]
  · simp [startHandler, startDeepLinkCondition_bare,
      registerUser_stable db uid n1 n2]

theorem broadcastRun_foldl (sendOk : Nat → Bool) (message : String) :
    ∀ (users : List UserRec) (eff : BroadcastEffect),
    users.foldl (broadcastStep sendOk message) eff =
      { attempts := eff.attempts ++ users.map (fun u => (u.userId, message)),
        successCount :=
          eff.successCount + users.countP (fun u => sendOk u.userId) } := by
  intro users
  induction users with
  | nil => intro eff; simp
  | cons u us ih =>
    intro eff
    rw [List.foldl_cons, ih]
    unfold broadcastStep
    by_cases h : sendOk u.userId = true <;>
      simp [h, List.countP_cons, BroadcastEffect.mk.injEq,
        List.append_assoc] <;> omega

theorem countP_add_countP_not (p : UserRec → Bool) (l : List UserRec) :
    l.countP p + l.countP (fun a => !p a) = l.length := by
  induction l with
  | nil => rfl
  | cons a l ih =>
    by_cases h : p a = true <;> simp [List.countP_cons, h] <;> omega

/-- C5: the admin broadcast attempts to send the admin-supplied text to
    every stored user in order, swallows per-recipient failures, and
    reports a success count equal to the number of stored users minus
    the number of failed sends. -/
theorem broadcast_count_correct (users : List UserRec)
    (sendOk : Nat → Bool) (message : String) :
    (broadcastRun users sendOk message).attempts
      = users.map (fun u => (u.userId, message)) ∧
    (broadcastRun users sendOk message).successCount
      = users.length - (users.filter (fun u => !sendOk u.userId)).length := by
  unfold broadcastRun
  rw [broadcastRun_foldl]
  refine ⟨by simp, ?_⟩
  simp only [Nat.zero_add]
  rw [← List.countP_eq_length_filter]
  have h := countP_add_countP_not (fun u => sendOk u.userId) users
  omega

/-- C4: after a successfully sent media message both webhook message
    handlers schedule exactly one deletion timer, with the fixed 20000ms
    delay; every deletion failure is caught without any user-facing
    message; `part_001` discards failures entirely, `part_000` only
    logs them, and `index.js` logs exactly the failures carrying a
    response with a status code other than 400 — so a rate-limited
    (429) deletion failure results in a log entry only. -/
theorem deletion_timer_once_and_swallowed (db : List UserRec)
    (now uid : Nat) (chatId : Int) (text : String) (vd : VideoData)
    (loadingId newMsgId : Nat) (e : DeleteError)
    (hslash : strStartsWith text "/" = false)
    (hlink : (strIncludes text "terabox.com"
      || strIncludes text "4funbox.com") = true)
    (hacc : hasActiveAccess (findUser db uid) now = true)
    (hok : (vd.status == "success" && jsTruthyStr vd.media_url) = true) :
    (messageHandler db now uid chatId text (some vd) loadingId
        newMsgId).timers = [scheduleMessageDeletion chatId newMsgId] ∧
    (messageHandler001 db now uid chatId (some text) (some vd) loadingId
        newMsgId).timers = [scheduleDelete chatId newMsgId] ∧
    scheduleMessageDeletion chatId newMsgId
      = { delayMs := 20000, chatId := chatId, messageId := newMsgId } ∧
    scheduleDelete chatId newMsgId
      = { delayMs := 20000, chatId := chatId, messageId := newMsgId } ∧
    (deleteErrorHandler e).userMessage = none ∧
    (deleteErrorHandler000 e).userMessage = none ∧
    (deleteErrorHandler001 e).userMessage = none ∧
    (deleteErrorHandler001 e).logged = false ∧
    (deleteErrorHandler e).logged
      = (e.response.map (fun r => r.statusCode != 400)).getD false ∧
    (deleteErrorHandler
      { response := some { statusCode := 429 } }).logged = true := by
  have hmu : jsTruthyStr vd.media_url = true := by
    cases hs : (vd.status == "success") <;> rw [hs] at hok <;>
      simp at hok <;> simp [hok]
  have hacc' : hasAccess (findUser db uid) now = true := by
    rw [hasAccess_eq_hasActiveAccess]; exact hacc
  refine ⟨?_, ?_, rfl, rfl, rfl, rfl, rfl, rfl, ?_, rfl⟩
  · simp [messageHandler, hslash, hlink, hacc, hok]
  · simp [messageHandler001, hslash, hlink, hacc', hmu]
  · cases h : e.response <;> simp [deleteErrorHandler, h]

theorem deletion_timer_once_and_swallowed_witness :
    (strStartsWith "x terabox.com" "/" = false ∧
      (strIncludes "x terabox.com" "terabox.com"
        || strIncludes "x terabox.com" "4funbox.com") = true ∧
      hasActiveAccess (findUser [{ userId := 7, isAccessGranted := true, accessExpires := some 100, createdAt := 0 }] 7) 50 = true ∧
      ((("success" : String) == "success")
        && jsTruthyStr (some "http://v")) = true) ∧
    (messageHandler [{ userId := 7, isAccessGranted := true, accessExpires := some 100, createdAt := 0 }] 50 7 9 "x terabox.com" (some { status := "success", media_url := some "http://v", title := "t" }) 3 4).timers
      = [scheduleMessageDeletion 9 4] :=
  ⟨⟨by decide, by decide, by decide, by decide⟩,
    (deletion_timer_once_and_swallowed
      [{ userId := 7, isAccessGranted := true, accessExpires := some 100, createdAt := 0 }]
      50 7 9 "x terabox.com"
      { status := "success", media_url := some "http://v", title := "t" }
      3 4 { response := none } (by decide) (by decide) (by decide)
      (by decide)).1⟩

/-- C10: an incoming text that starts with a slash, or contains neither
    a terabox.com nor a 4funbox.com link, makes the webhook message
    handlers return early with no outward message, no external API
    call, no user-record read or write, and no timer (and `part_001`
    does the same for a message with no text at all). -/
theorem message_guard_no_effects (db : List UserRec) (now uid : Nat)
    (chatId : Int) (text : String) (api : Option VideoData)
    (loadingId newMsgId : Nat)
    (h : strStartsWith text "/" = true ∨
      (strIncludes text "terabox.com" = false ∧
        strIncludes text "4funbox.com" = false)) :
    messageHandler db now uid chatId text api loadingId newMsgId
      = emptyMsgEffects ∧
    messageHandler001 db now uid chatId (some text) api loadingId newMsgId
      = emptyMsgEffects ∧
    messageHandler001 db now uid chatId none api loadingId newMsgId
      = emptyMsgEffects := by
  rcases h with h | ⟨h1, h2⟩
  · exact ⟨by simp [messageHandler, h], by simp [messageHandler001, h], rfl⟩
  · exact ⟨by simp [messageHandler, h1, h2],
      by simp [messageHandler001, h1, h2], rfl⟩

theorem message_guard_no_effects_witness :
    ((strStartsWith "/help" "/" = true ∨
      (strIncludes "/help" "terabox.com" = false ∧
        strIncludes "/help" "4funbox.com" = false)) ∧
      (strIncludes "hello" "terabox.com" = false ∧
        strIncludes "hello" "4funbox.com" = false)) ∧
    messageHandler [] 0 1 2 "/help" none 3 4 = emptyMsgEffects ∧
    messageHandler [] 0 1 2 "hello" none 3 4 = emptyMsgEffects :=
  ⟨⟨Or.inl (by decide), by decide, by decide⟩,
    (message_guard_no_effects [] 0 1 2 "/help" none 3 4
      (Or.inl (by decide))).1,
    (message_guard_no_effects [] 0 1 2 "hello" none 3 4
      (Or.inr ⟨by decide, by decide⟩)).1⟩

/-- C7: a `/setvideo`, `/usercount` or `/broadcast` invocation by a
    non-admin id is stopped by the admin check: the User and Config
    stores are left unchanged, no broadcast send is attempted, and the
    only reply is a not-an-admin refusal (`index.js`, `part_002`) or
    nothing at all (`part_001`). -/
theorem admin_gate_blocks_non_admin (adminId uid now : Nat)
    (st : AdminState) (video : Option String) (message : String)
    (sendOk : Nat → Bool) (tusers : List TUser)
    (tutorial : Option String) (command : String) (rv : Option String)
    (h : (uid == adminId) = false) :
    setvideoHandler adminId uid st video
      = { state := st, replies := [notAdminText], broadcastSends := [] } ∧
    usercountHandler adminId uid now st
      = { state := st, replies := [notAdminText], broadcastSends := [] } ∧
    broadcastCommandHandler adminId uid st message sendOk
      = { state := st, replies := [notAdminText], broadcastSends := [] } ∧
    setvideoHandler001 adminId uid st video
      = { state := st, replies := [], broadcastSends := [] } ∧
    usercountHandler001 adminId uid now st
      = { state := st, replies := [], broadcastSends := [] } ∧
    handleAdminCommands adminId uid tusers tutorial command rv sendOk
      = { tutorial := tutorial, replies := [notAdminText002],
          broadcastSends := [] } := by
  refine ⟨?_, ?_, ?_, ?_, ?_, ?_⟩ <;>
    simp [setvideoHandler, usercountHandler, broadcastCommandHandler,
      setvideoHandler001, usercountHandler001, handleAdminCommands,
      isAdmin, bne, h]

theorem admin_gate_blocks_non_admin_witness :
    ((2 == 1) = false) ∧
    setvideoHandler 1 2 { users := [], config := [] } none
      = { state := { users := [], config := [] },
          replies := [notAdminText], broadcastSends := [] } ∧
    handleAdminCommands 1 2 [] none "/usercount" none (fun _ => true)
      = { tutorial := none, replies := [notAdminText002],
          broadcastSends := [] } :=
  ⟨by decide,
    (admin_gate_blocks_non_admin 1 2 0 { users := [], config := [] } none
      "m" (fun _ => true) [] none "/usercount" none (by decide)).1,
    (admin_gate_blocks_non_admin 1 2 0 { users := [], config := [] } none
      "m" (fun _ => true) [] none "/usercount" none
      (by decide)).2.2.2.2.2⟩

theorem configUpsert_mem (c : List (String × String)) (k v x y : String)
    (hx : (x, y) ∈ configUpsert c k v) : x = k ∨ (x, y) ∈ c := by
  induction c with
  | nil =>
    simp [configUpsert] at hx
    exact Or.inl hx.1
  | cons kv rest ih =>
    by_cases hk : (kv.1 == k) = true
    · simp [configUpsert, hk] at hx
      rcases hx with ⟨hx1, _⟩ | hx
      · exact Or.inl hx1
      · exact Or.inr (List.mem_cons_of_mem _ hx)
    · simp [configUpsert, hk] at hx
      rcases hx with hx | hx
      · exact Or.inr (by simp [hx])
      · rcases ih hx with h1 | h1
        · exact Or.inl h1
        · exact Or.inr (List.mem_cons_of_mem _ h1)

theorem configUpsert_nodup (c : List (String × String)) (k v : String)
    (h : (c.map Prod.fst).Nodup) :
    ((configUpsert c k v).map Prod.fst).Nodup := by
  induction c with
  | nil => simp [configUpsert]
  | cons kv rest ih =>
    simp only [List.map_cons, List.nodup_cons] at h
    by_cases hk : (kv.1 == k) = true
    · have hek : kv.1 = k := by simpa using hk
      simp only [configUpsert, hk, if_true, List.map_cons,
        List.nodup_cons]
      exact ⟨hek ▸ h.1, h.2⟩
    · simp only [configUpsert, hk, if_false, Bool.false_eq_true,
        List.map_cons, List.nodup_cons]
      refine ⟨?_, ih h.2⟩
      intro hmem
      rcases List.mem_map.mp hmem with ⟨⟨a, b⟩, hab, hfst⟩
      rcases configUpsert_mem rest k v a b hab with he | hm
      · have : (kv.1 == k) = true := by
          rw [← hfst, he]; simp
        exact absurd this (by simpa using hk)
      · exact h.1 (List.mem_map.mpr ⟨(a, b), hm, hfst⟩)

theorem configUpsert_overwrite (c : List (String × String))
    (k v1 v2 : String) :
    configUpsert (configUpsert c k v1) k v2 = configUpsert c k v2 := by
  induction c with
  | nil => simp [configUpsert]
  | cons kv rest ih =>
    by_cases hk : (kv.1 == k) = true
    · simp [configUpsert, hk]
    · simp [configUpsert, hk, ih]

theorem configUpsert_find (c : List (String × String)) (k v : String) :
    (configUpsert c k v).find? (fun kv => kv.1 == k) = some (k, v) := by
  induction c with
  | nil => simp [configUpsert]
  | cons kv rest ih =>
    by_cases hk : (kv.1 == k) = true
    · simp [configUpsert, hk, List.find?]
    · simp [configUpsert, hk, List.find?, ih]

theorem configUpsert_length_irrel (c : List (String × String))
    (k v v' : String) :
    (configUpsert c k v).length = (configUpsert c k v').length := by
  induction c with
  | nil => rfl
  | cons kv rest ih =>
    by_cases hk : (kv.1 == k) = true <;> simp [configUpsert, hk, ih]

/-- C8: the config upsert keeps at most one row per key (key uniqueness
    is preserved), a second `/setvideo` replaces the stored value under
    the single key `tutorial_video_file_id` without adding a row, and
    the admin `/setvideo` handler writes through exactly this upsert. -/
theorem config_store_upsert_semantics (c : List (String × String))
    (k v v1 v2 : String) (adminId : Nat) (st : AdminState) (fid : String)
    (h : (c.map Prod.fst).Nodup) :
    ((configUpsert c k v).map Prod.fst).Nodup ∧
    configUpsert (configUpsert c k v1) k v2 = configUpsert c k v2 ∧
    (configUpsert (configUpsert c k v1) k v2).length
      = (configUpsert c k v1).length ∧
    (configUpsert c k v).find? (fun kv => kv.1 == k) = some (k, v) ∧
    (setvideoHandler adminId adminId st (some fid)).state.config
      = configUpsert st.config "tutorial_video_file_id" fid := by
  refine ⟨configUpsert_nodup c k v h, configUpsert_overwrite c k v1 v2,
    ?_, configUpsert_find c k v, ?_⟩
  · rw [configUpsert_overwrite]
    exact configUpsert_length_irrel c k v2 v1
  · simp [setvideoHandler, isAdmin]

theorem config_store_upsert_semantics_witness :
    ((([] : List (String × String)).map Prod.fst).Nodup) ∧
    configUpsert (configUpsert [] "tutorial_video_file_id" "a")
        "tutorial_video_file_id" "b"
      = configUpsert [] "tutorial_video_file_id" "b" :=
  ⟨by simp,
    (config_store_upsert_semantics [] "tutorial_video_file_id" "a" "a"
      "b" 1 { users := [], config := [] } "f" (by simp)).2.1⟩

/-- C9: in the Telegraf variant, a plain `/start` from an
    already-registered user whose `accessExpiresAt` is non-null but not
    in the future immediately re-grants 24 hours of access with the
    congratulation reply; and the entitlement test of that variant depends
    only on `accessExpiresAt`, not on the `isAccessGranted` flag. -/
theorem telegraf_regrant_on_return (u : TUser) (e now adminId uid : Nat)
    (b : Bool) (hexp : u.accessExpiresAt = some e) (hle : e ≤ now) :
    (telegrafStart (some u) adminId uid now).1.isAccessGranted = true ∧
    (telegrafStart (some u) adminId uid now).1.accessExpiresAt
      = some (now + 24 * 60 * 60 * 1000) ∧
    (telegrafStart (some u) adminId uid now).2 = StartReply.congrats ∧
    telegrafTextHasAccess { u with isAccessGranted := b } now
      = telegrafTextHasAccess u now := by
  have hna : telegrafTextHasAccess u now = false := by
    simp [telegrafTextHasAccess, hexp]
    omega
  refine ⟨?_, ?_, ?_, rfl⟩ <;>
    simp [telegrafStart, hna, hexp, telegrafGrantAccess]

theorem telegraf_regrant_on_return_witness :
    (({ telegramId := 5, isAccessGranted := false, accessExpiresAt := some 10, isAdmin := false } : TUser).accessExpiresAt = some 10 ∧ 10 ≤ 10) ∧
    (telegrafStart (some { telegramId := 5, isAccessGranted := false, accessExpiresAt := some 10, isAdmin := false }) 1 5 10).2 = StartReply.congrats :=
  ⟨⟨rfl, by decide⟩,
    (telegraf_regrant_on_return
      { telegramId := 5, isAccessGranted := false, accessExpiresAt := some 10, isAdmin := false }
      10 10 1 5 true rfl (by decide)).2.2.1⟩
